import Mathlib

/-!
Verification of the OSCORE/EDHOC core snippets: a shallow embedding of
`src/src/oscore/coap2oscore.c`, `src/modules/edhoc/cbor/encode_th3.c` and
`src/modules/edhoc/src/associated_data_encode.c`, together with theorems
settling the specification claims about them.

Machine integers are modelled as `Nat` with explicit `% 2^w` reductions at
exactly the places where the C code performs a narrowing conversion or
wraps.  Byte buffers are `List Nat` (each element a byte value).  Functions
of the repository that are not part of the provided sources (the CoAP
parser/serializer, the option classifier, the PIV/nonce/AAD helpers and the
AEAD itself) are modelled from the specification and marked as such in
their doc comments.
-/

/-- Error kinds surfaced by the embedded operations.  `not_valid_input_packet`
and `oscore_valuelen_to_long_error` appear literally in the provided source;
the remaining names follow the specification's error surface (section 7). -/
inductive Err where
  | not_valid_input_packet
  | ssn_exhausted
  | oscore_valuelen_to_long_error
  | buffer_to_small
  | dest_buffer_to_small
  | no_echo_option
  | aead_failure
deriving Repr, DecidableEq

/-- A CoAP option record, mirroring `struct o_coap_option`
(fields `delta`, `len` : uint16, `value` : byte buffer, `option_number` : uint16). -/
structure OCoapOption where
  delta : Nat
  len : Nat
  value : List Nat
  option_number : Nat
deriving Repr, DecidableEq

/-- CoAP header, mirroring `struct o_coap_header` (version, type, token length,
code, message id). -/
structure CoapHeader where
  ver : Nat
  type : Nat
  TKL : Nat
  code : Nat
  MID : Nat
deriving Repr, DecidableEq

/-- A parsed CoAP packet, mirroring `struct o_coap_packet`.  The option count
of the C struct is `options.length`; the payload length is `payload.length`. -/
structure OCoapPacket where
  header : CoapHeader
  token : List Nat
  options : List OCoapOption
  payload : List Nat
deriving Repr, DecidableEq

/-- CoAP option number of the Observe option (RFC 7641), used by the
`case OBSERVE` arm of `inner_outer_option_split`. -/
def OBSERVE : Nat := 6

/-- CoAP option number of the OSCORE option; the spec (section 6) fixes it to 9. -/
def OSCORE : Nat := 9

/-- CoAP option number of the ECHO option; the spec's glossary fixes it to 252. -/
def ECHO : Nat := 252

/-- CoAP message type ACK (value 2 per RFC 7252). -/
def TYPE_ACK : Nat := 2

/-- CoAP empty message code 0.00. -/
def CODE_EMPTY : Nat := 0

/-- CoAP request code POST (0.02). -/
def CODE_REQ_POST : Nat := 2

/-- CoAP request code FETCH (0.05). -/
def CODE_REQ_FETCH : Nat := 5

/-- CoAP response code 2.04 Changed. -/
def CODE_RESP_CHANGED : Nat := 68

/-- CoAP response code 2.05 Content. -/
def CODE_RESP_CONTENT : Nat := 69

/-- Modelled from the spec: the compile-time bound `MAX_OPTION_COUNT`
(section 5 resource bounds; the header defining the value is not under
`src/`). -/
def MAX_OPTION_COUNT : Nat := 20

/-- Modelled from the spec: the compile-time bound `MAX_PLAINTEXT_LEN`. -/
def MAX_PLAINTEXT_LEN : Nat := 1024

/-- AEAD tag length appended to every ciphertext. -/
def AUTH_TAG_LEN : Nat := 8

/-- Modelled from the spec: the compile-time bound `MAX_CIPHERTEXT_LEN`. -/
def MAX_CIPHERTEXT_LEN : Nat := MAX_PLAINTEXT_LEN + AUTH_TAG_LEN

/-- Modelled from the spec: the compile-time bound `E_OPTIONS_BUFF_MAX_LEN`
used for the serialized E-options scratch buffer. -/
def E_OPTIONS_BUFF_MAX_LEN : Nat := 1024

/-- Modelled from the spec: the bound `OSCORE_OPT_VALUE_LEN` on the OSCORE
option value (flag byte + up to 5 PIV bytes + kid context + kid). -/
def OSCORE_OPT_VALUE_LEN : Nat := 23

/-- Maximal partial-IV length `MAX_PIV_LEN = 5` (section 5). -/
def MAX_PIV_LEN : Nat := 5

/-- Upper bound of the sender sequence number, `MAX_SSN = 2^40 - 1` (section 3). -/
def MAX_SSN : Nat := 2 ^ 40 - 1

/-- Flag bit `k` (kid present) of the OSCORE option value first byte,
`COMP_OSCORE_OPT_KID_K_MASK`. -/
def COMP_OSCORE_OPT_KID_K_MASK : Nat := 8

/-- Flag bit `h` (kid context present) of the OSCORE option value first byte,
`COMP_OSCORE_OPT_KIDC_H_MASK`. -/
def COMP_OSCORE_OPT_KIDC_H_MASK : Nat := 16

/-- Modelled from the spec: `is_request` (in `oscore_coap.c`, not under
`src/`): a request is a packet whose code has class 0 and is not the empty
code 0.00 (sections 3 and 4.2.6). -/
def is_request (pkt : OCoapPacket) : Bool :=
  pkt.header.code / 32 == 0 && pkt.header.code != 0

/-- Modelled from the spec: `is_observe` (in `option.c`, not under `src/`):
true when some option of the list carries the Observe option number. -/
def is_observe (opts : List OCoapOption) : Bool :=
  opts.any (fun o => o.option_number == OBSERVE)

/-- Modelled from the spec: `is_class_e` (in `option.c`, not under `src/`).
Per the spec's option classification (section 3), an option number is class E
unless it is one of the unprotected outer numbers (Uri-Host 3, Uri-Port 7,
Proxy-Uri 35, Proxy-Scheme 39) or the OSCORE option number itself. -/
def is_class_e (nr : Nat) : Bool :=
  !(nr == 3 || nr == 7 || nr == 35 || nr == 39 || nr == OSCORE)

/-- Extension-byte count charged by `inner_outer_option_split` for an option
delta or length value (coap2oscore.c lines 73-83): one byte for values
strictly between 13 and 243, two bytes for values of 243 or more. -/
def delta_extra_bytes (v : Nat) : Nat :=
  if 13 < v ∧ v < 243 then 1 else if 243 ≤ v then 2 else 0

/-- Extension-byte count required by the CoAP wire format (spec section 4.1):
nibble value 13 carries one extension byte covering 13..268, nibble value 14
carries two extension bytes covering 269 and above. -/
def coap_extension_bytes (v : Nat) : Nat :=
  if v < 13 then 0 else if v < 269 then 1 else 2

/-- Running state of `inner_outer_option_split`: the absolute option number
accumulator `temp_option_nr` (uint8), the per-list delta sums
`temp_E_option_delta_sum` / `temp_U_option_delta_sum` (uint8), the byte
length accumulator `e_options_len` (uint16), and the two output lists. -/
structure SplitState where
  tempNr : Nat
  eSum : Nat
  uSum : Nat
  eLen : Nat
  eOpts : List OCoapOption
  uOpts : List OCoapOption
deriving Repr, DecidableEq

/-- Initial state of the option split. -/
def initSplit : SplitState := ⟨0, 0, 0, 0, [], []⟩

/-- One iteration of the loop of `inner_outer_option_split`
(coap2oscore.c lines 65-202).  `temp_option_nr` is updated modulo 256
(uint8 cast), `temp_len` is the length truncated to uint8, the per-entry
deltas are computed as uint16 two's-complement differences, and the delta
sums and `e_options_len` wrap at their C widths. -/
def splitStep (isReq : Bool) (s : SplitState) (o : OCoapOption) : SplitState :=
  let nr := (s.tempNr + o.delta) % 256
  let tlen := o.len % 256
  let dEx := delta_extra_bytes o.delta
  let lEx := delta_extra_bytes o.len
  if nr = OBSERVE then
    let eDelta := (nr + 65536 - s.eSum) % 65536
    let eEntry : OCoapOption :=
      if isReq then ⟨eDelta, tlen, o.value, nr⟩ else ⟨eDelta, 0, [], nr⟩
    let eLen' :=
      if isReq then (s.eLen + 1 + dEx + lEx + tlen) % 65536 else (s.eLen + 1) % 65536
    let eSum' := (s.eSum + eDelta) % 256
    let uDelta := (nr + 65536 - s.uSum) % 65536
    let uEntry : OCoapOption := ⟨uDelta, tlen, o.value, nr⟩
    let uSum' := (s.uSum + uDelta) % 256
    ⟨nr, eSum', uSum', eLen', s.eOpts ++ [eEntry], s.uOpts ++ [uEntry]⟩
  else if is_class_e nr then
    let eDelta := (nr + 65536 - s.eSum) % 65536
    ⟨nr, (s.eSum + eDelta) % 256, s.uSum, (s.eLen + 1 + dEx + lEx + tlen) % 65536,
      s.eOpts ++ [⟨eDelta, tlen, o.value, nr⟩], s.uOpts⟩
  else
    let uDelta := (nr + 65536 - s.uSum) % 65536
    ⟨nr, s.eSum, (s.uSum + uDelta) % 256, s.eLen,
      s.eOpts, s.uOpts ++ [⟨uDelta, tlen, o.value, nr⟩]⟩

/-- Embedding of `inner_outer_option_split` (coap2oscore.c lines 42-204): rejects packets
with more than `MAX_OPTION_COUNT` options, otherwise folds `splitStep` over
the input options. -/
def inner_outer_option_split (pkt : OCoapPacket) : Except Err SplitState :=
  if MAX_OPTION_COUNT < pkt.options.length then .error .not_valid_input_packet
  else .ok (pkt.options.foldl (splitStep (is_request pkt)) initSplit)

/-- CBOR header bytes for a definite-length string of major type base `base`
(`0x40` for byte strings, `0x60` for text strings), as emitted by the
cddl-gen runtime used by `encode_th3.c` (lengths are uint32). -/
def cborStrHeader (base n : Nat) : List Nat :=
  if n < 24 then [base + n]
  else if n < 256 then [base + 24, n]
  else if n < 65536 then [base + 25, n / 256, n % 256]
  else [base + 26, n / 2 ^ 24 % 256, n / 65536 % 256, n / 256 % 256, n % 256]

/-- CBOR encoding of a definite-length string with major-type base `base`. -/
def cborStrEncode (base : Nat) (b : List Nat) : List Nat :=
  cborStrHeader base b.length ++ b

/-- Embedding of `bstrx_encode` of the cddl-gen runtime: CBOR byte string (major type 2). -/
def bstrx_encode (b : List Nat) : List Nat := cborStrEncode 64 b

/-- CBOR text string encoder (major type 3). -/
def tstrx_encode (b : List Nat) : List Nat := cborStrEncode 96 b

/-- Embedding of `encode_th3` (encode_th3.c lines 19-31): the body of the TH_3 hash input
serializes exactly the two byte strings `th_2` and `CIPHERTEXT_2`, in this
order, as a CBOR sequence. -/
def encode_th3 (th_2 CIPHERTEXT_2 : List Nat) : List Nat :=
  bstrx_encode th_2 ++ bstrx_encode CIPHERTEXT_2

/-- The TH_3 hash input as the spec's words describe it
(`TH_3 = H(TH_2, PLAINTEXT_2, CRED_R)`, section 4.3.2): a CBOR sequence of
the three items TH_2, PLAINTEXT_2 and CRED_R.  This definition follows the
spec, not the source; it exists to be compared with `encode_th3`. -/
def th3_hash_input_spec (th_2 plaintext_2 cred_r : List Nat) : List Nat :=
  bstrx_encode th_2 ++ bstrx_encode plaintext_2 ++ bstrx_encode cred_r

/-- Decoder for one definite-length CBOR string of major-type base `base`:
returns the payload and the remaining bytes. -/
def cborStrDecodeOne (base : Nat) (bs : List Nat) : Option (List Nat × List Nat) :=
  match bs with
  | [] => none
  | b :: rest =>
    if base ≤ b ∧ b < base + 24 then
      let n := b - base
      if n ≤ rest.length then some (rest.take n, rest.drop n) else none
    else if b = base + 24 then
      match rest with
      | n :: rest2 =>
        if n ≤ rest2.length then some (rest2.take n, rest2.drop n) else none
      | [] => none
    else if b = base + 25 then
      match rest with
      | h :: l :: rest2 =>
        let n := h * 256 + l
        if n ≤ rest2.length then some (rest2.take n, rest2.drop n) else none
      | _ => none
    else if b = base + 26 then
      match rest with
      | b3 :: b2 :: b1 :: b0 :: rest2 =>
        let n := b3 * 2 ^ 24 + b2 * 65536 + b1 * 256 + b0
        if n ≤ rest2.length then some (rest2.take n, rest2.drop n) else none
      | _ => none
    else none

/-- Decoder for a CBOR sequence made of byte strings only; `fuel` bounds the
number of items. -/
def bstrSeqDecode (fuel : Nat) (bs : List Nat) : Option (List (List Nat)) :=
  match fuel with
  | 0 => if bs = [] then some [] else none
  | fuel + 1 =>
    if bs = [] then some []
    else
      match cborStrDecodeOne 64 bs with
      | none => none
      | some (item, rest) => (bstrSeqDecode fuel rest).map (item :: ·)

/-- The ASCII bytes of the string "Encrypt0" passed by
`associated_data_encode` (strlen = 8). -/
def encrypt0_str : List Nat := [69, 110, 99, 114, 121, 112, 116, 48]

/-- Modelled from the spec: `cose_enc_structure_encode` (in the edhoc module's
`cose.c`, not under `src/`) serializes the COSE `Enc_structure`
`[context, protected, external_aad]` as a CBOR array of three items: a text
string, a byte string and a byte string (spec section 4.2.4). -/
def cose_enc_structure_encode (context protectedHdr external_aad : List Nat) : List Nat :=
  131 :: (tstrx_encode context ++ bstrx_encode protectedHdr ++ bstrx_encode external_aad)

/-- Embedding of `associated_data_encode` (associated_data_encode.c lines 18-25): encodes
the Enc_structure with context "Encrypt0", empty protected header and the
transcript hash as external additional data. -/
def associated_data_encode (thX : List Nat) : List Nat :=
  cose_enc_structure_encode encrypt0_str [] thX

/-- The Enc_structure as the spec's words describe it
(`["Encrypt0", h'' /*protected*/, external_aad]` serialized as CBOR,
section 4.2.4).  This definition follows the spec, to be compared with
`associated_data_encode`. -/
def enc_structure_spec (thX : List Nat) : List Nat :=
  131 :: (tstrx_encode encrypt0_str ++ bstrx_encode [] ++ bstrx_encode thX)

/-- Decoder for a serialized three-item Enc_structure
`[tstr context, bstr protected, bstr external_aad]`. -/
def encStructureDecode (bs : List Nat) : Option (List Nat × List Nat × List Nat) :=
  match bs with
  | b :: rest =>
    if b = 131 then
      match cborStrDecodeOne 96 rest with
      | none => none
      | some (ctx, r1) =>
        match cborStrDecodeOne 64 r1 with
        | none => none
        | some (prot, r2) =>
          match cborStrDecodeOne 64 r2 with
          | none => none
          | some (aad, r3) => if r3 = [] then some (ctx, prot, aad) else none
    else none
  | [] => none

/-- Nibble and extension bytes of a CoAP option delta or length value, per
the wire format of spec section 4.1. -/
def serializeNib (v : Nat) : Nat × List Nat :=
  if v < 13 then (v, [])
  else if v < 269 then (13, [v - 13])
  else (14, [(v - 269) / 256, (v - 269) % 256])

/-- Wire bytes of a single CoAP option record (header byte, extension bytes,
value). -/
def option_bytes (o : OCoapOption) : List Nat :=
  let dn := serializeNib o.delta
  let ln := serializeNib o.len
  (dn.1 * 16 + ln.1) :: (dn.2 ++ ln.2 ++ o.value)

/-- Modelled from the spec: `options_into_byte_string` (in `oscore_coap.c`,
not under `src/`): serializes an option list to its CoAP wire bytes
(section 4.1). -/
def options_into_byte_string (opts : List OCoapOption) : List Nat :=
  (opts.map option_bytes).flatten

/-- Modelled from the spec: `coap2buf` (in `oscore_coap.c`, not under
`src/`): serializes a CoAP packet back to bytes (section 4.1). -/
def coap2buf (pkt : OCoapPacket) : List Nat :=
  (pkt.header.ver % 4 * 64 + pkt.header.type % 4 * 16 + pkt.header.TKL % 16)
    :: pkt.header.code % 256
    :: pkt.header.MID / 256 % 256
    :: pkt.header.MID % 256
    :: (pkt.token ++ options_into_byte_string pkt.options
        ++ (if pkt.payload.length ≠ 0 then 255 :: pkt.payload else []))

/-- Decodes an option delta or length nibble together with its extension
bytes (13: one extra byte + 13; 14: two extra bytes + 269; 15 reserved). -/
def parseExt (nib : Nat) (bs : List Nat) : Option (Nat × List Nat) :=
  if nib < 13 then some (nib, bs)
  else if nib = 13 then
    match bs with
    | b :: r => some (13 + b, r)
    | [] => none
  else if nib = 14 then
    match bs with
    | b1 :: b2 :: r => some (269 + b1 * 256 + b2, r)
    | _ => none
  else none

/-- Option-list parser of the CoAP byte format: consumes options until the
payload marker 0xFF (which must be followed by a non-empty payload) or the
end of the buffer; `prevNum` is the absolute number of the previous option
(uint16). -/
def parseOptions (fuel : Nat) (prevNum : Nat) (bs : List Nat) :
    Option (List OCoapOption × List Nat) :=
  match fuel, bs with
  | _, [] => some ([], [])
  | _, 255 :: rest => if rest = [] then none else some ([], rest)
  | 0, _ => none
  | fuel + 1, b :: rest =>
    match parseExt (b / 16) rest with
    | none => none
    | some (delta, r1) =>
      match parseExt (b % 16) r1 with
      | none => none
      | some (len, r2) =>
        if len ≤ r2.length then
          let num := (prevNum + delta) % 65536
          match parseOptions fuel num (r2.drop len) with
          | none => none
          | some (opts, payload) =>
            some (⟨delta, len, r2.take len, num⟩ :: opts, payload)
        else none

/-- Modelled from the spec: `buf2coap` (in `oscore_coap.c`, not under
`src/`): parses a byte buffer into a CoAP packet, validating version = 1,
TKL at most 8 and the option/payload encoding (section 4.1). -/
def buf2coap (buf : List Nat) : Except Err OCoapPacket :=
  match buf with
  | b0 :: code :: m1 :: m2 :: rest =>
    let ver := b0 / 64
    let typ := b0 / 16 % 4
    let tkl := b0 % 16
    if ver ≠ 1 then .error .not_valid_input_packet
    else if 8 < tkl then .error .not_valid_input_packet
    else if rest.length < tkl then .error .not_valid_input_packet
    else
      match parseOptions (rest.drop tkl).length 0 (rest.drop tkl) with
      | none => .error .not_valid_input_packet
      | some (opts, payload) =>
        .ok ⟨⟨ver, typ, tkl, code, m1 * 256 + m2⟩, rest.take tkl, opts, payload⟩
  | _ => .error .not_valid_input_packet

/-- Sender part of the OSCORE security context (`struct sender_context`). -/
structure SenderCtx where
  sender_id : List Nat
  sender_key : List Nat
  sender_seq_num : Nat
deriving Repr, DecidableEq

/-- Common part of the OSCORE security context (`struct common_context`). -/
structure CommonCtx where
  common_iv : List Nat
  id_context : List Nat
  aead_alg : Nat
deriving Repr, DecidableEq

/-- Request-response part of the OSCORE security context (`struct req_resp_context`). -/
structure ReqRespCtx where
  nonce : List Nat
  request_kid : List Nat
  request_piv : List Nat
  echo_opt_val : List Nat
  reboot : Bool
deriving Repr, DecidableEq

/-- The OSCORE security context `struct context` with its `sc`, `cc` and
`rrc` sub-structures (recipient fields are not used by `coap2oscore`). -/
structure Context where
  sc : SenderCtx
  cc : CommonCtx
  rrc : ReqRespCtx
deriving Repr, DecidableEq

/-- Big-endian bytes of a natural number, most significant byte first,
without leading zeros (empty for 0); `fuel` bounds the byte count. -/
def natToBytesAux : Nat → Nat → List Nat
  | 0, _ => []
  | f + 1, n => if n = 0 then [] else natToBytesAux f (n / 256) ++ [n % 256]

/-- Big-endian minimal byte representation of a 64-bit value. -/
def natToBytes (n : Nat) : List Nat := natToBytesAux 8 n

/-- Trimmed partial IV of a sender sequence number: its minimal big-endian
bytes, with the single byte 0x00 for the value 0. -/
def pivOf (ssn : Nat) : List Nat := if ssn = 0 then [0] else natToBytes ssn

/-- Modelled from the spec: `sender_seq_num2piv` (in `security_context.c`,
not under `src/`).  Converts the sender sequence number into the trimmed
partial IV; per sections 4.2.6 and 8, a sequence number beyond
`MAX_SSN = 2^40 - 1` fails with `ssn_exhausted` (sending at `MAX_SSN`
itself still succeeds). -/
def sender_seq_num2piv (ssn : Nat) : Except Err (List Nat) :=
  if MAX_SSN < ssn then .error .ssn_exhausted else .ok (pivOf ssn)

/-- Modelled from the spec: `create_nonce` (in `nonce.c`, not under `src/`).
RFC 8613 section 5.2 as transcribed in spec section 4.2.3: one length byte,
the zero-padded sender id, the zero-padded partial IV, XOR-ed with the
common IV. -/
def create_nonce (sid piv common_iv : List Nat) : Except Err (List Nat) :=
  if 5 < sid.length then .error .not_valid_input_packet
  else if 7 < piv.length then .error .not_valid_input_packet
  else
    let core := sid.length :: (List.replicate (5 - sid.length) 0 ++ sid
      ++ List.replicate (7 - piv.length) 0 ++ piv)
    .ok (List.zipWith (fun a b => a ^^^ b) core common_iv)

/-- CBOR encoding of a small unsigned integer. -/
def intEncode (n : Nat) : List Nat :=
  if n < 24 then [n] else if n < 256 then [24, n] else [25, n / 256, n % 256]

/-- Modelled from the spec: `create_aad` (in `aad.c`, not under `src/`).
Section 4.2.4: `external_aad = [oscore_version = 1, [aead_alg], request_kid,
request_piv, ""]`, wrapped in the Enc_structure
`["Encrypt0", h'', external_aad]`. -/
def create_aad (alg : Nat) (request_kid request_piv : List Nat) : List Nat :=
  let ext := 133 :: (intEncode 1 ++ (129 :: intEncode alg)
    ++ bstrx_encode request_kid ++ bstrx_encode request_piv ++ [96])
  cose_enc_structure_encode encrypt0_str [] ext

/-- Modelled from the spec: `cache_echo_val` (in `security_context.c`, not
under `src/`).  Section 8 scenario 5: the first outbound request after
reboot caches the value of its ECHO-bearing E-option. -/
def cache_echo_val (eOpts : List OCoapOption) : Except Err (List Nat) :=
  match eOpts.find? (fun o => o.option_number == ECHO) with
  | some o => .ok o.value
  | none => .error .no_echo_option

/-- Pads a byte list with zeros up to length `n` (a freshly reserved C
buffer whose tail is never written is modelled as zero-filled). -/
def padTo (n : Nat) (xs : List Nat) : List Nat :=
  xs ++ List.replicate (n - xs.length) 0

/-- The OSCORE option under construction (`struct oscore_option`): option
number, value length and value bytes. -/
structure OscoreOption where
  option_number : Nat
  len : Nat
  value : List Nat
deriving Repr, DecidableEq

/-- Embedding of `get_oscore_opt_val_len` (coap2oscore.c lines 289-304): total byte
length of the OSCORE option value; the sum and the increments are uint8
arithmetic. -/
def get_oscore_opt_val_len (piv kid kid_context : List Nat) : Nat :=
  let l := (piv.length + kid_context.length + kid.length) % 256
  let l := if l ≠ 0 then (l + 1) % 256 else l
  if kid_context.length ≠ 0 then (l + 1) % 256 else l

/-- Embedding of `oscore_option_generate` (coap2oscore.c lines 319-380): builds the
OSCORE option value: flag byte (PIV length bits, the kid-context flag when
present, and the kid flag, which is set unconditionally), then the PIV
bytes, then the kid-context length byte and bytes, then the kid bytes.
The `_memcpy_s` destination-size checks of the source are kept; the buffer
of `len` bytes is zero-initialized, so the result is padded to `len`.
(When `piv` is empty but `len` is not 0, the source's write position does
not advance past the flag byte; that case is never reached from
`coap2oscore`, which always passes a non-empty trimmed PIV, and the model
uses the same layout formula there.) -/
def oscore_option_generate (piv kid kid_context : List Nat) (len : Nat) :
    Except Err (List Nat) :=
  if len = 0 then .ok []
  else if piv.length ≠ 0 ∧ len - 1 < piv.length then .error .dest_buffer_to_small
  else
    let flags0 := if piv.length ≠ 0 then piv.length % 256 else 0
    let pos1 := if piv.length ≠ 0 then 1 + piv.length else 1
    if kid_context.length ≠ 0 ∧ len - (pos1 + 1) < kid_context.length then
      .error .dest_buffer_to_small
    else
      let flags1 := if kid_context.length ≠ 0 then flags0 ||| COMP_OSCORE_OPT_KIDC_H_MASK
        else flags0
      let pos2 := if kid_context.length ≠ 0 then pos1 + 1 + kid_context.length else pos1
      let flags2 := flags1 ||| COMP_OSCORE_OPT_KID_K_MASK
      if kid.length ≠ 0 ∧ len - pos2 < kid.length then .error .dest_buffer_to_small
      else
        .ok (padTo len (flags2 :: ((if piv.length ≠ 0 then piv else [])
          ++ (if kid_context.length ≠ 0 then kid_context.length % 256 :: kid_context else [])
          ++ kid)))

/-- The OSCORE-option branch of `coap2oscore` (coap2oscore.c lines 544-586):
for requests, observe responses and the first response after reboot, the
sender sequence number is post-incremented (uint64), turned into the partial
IV, the request piv/kid are cached for requests, the ECHO value is cached on
reboot, the nonce is computed into the context, and the OSCORE option is
generated; otherwise the option value is absent.  All context mutations
performed before a failure persist (the C code mutates through pointers). -/
def oscore_option_branch (pkt : OCoapPacket) (eOpts uOpts : List OCoapOption)
    (c : Context) : Except Err OscoreOption × Context :=
  let request := is_request pkt
  if request || is_observe uOpts || c.rrc.reboot then
    let ssn := c.sc.sender_seq_num
    let c1 : Context := { c with sc := { c.sc with sender_seq_num := (ssn + 1) % 2 ^ 64 } }
    match sender_seq_num2piv ssn with
    | .error e => (.error e, c1)
    | .ok piv =>
      let c2 : Context :=
        if request then
          { c1 with rrc := { c1.rrc with request_piv := piv, request_kid := c1.sc.sender_id } }
        else c1
      match (if c2.rrc.reboot then (cache_echo_val eOpts).map some else .ok none) with
      | .error e => (.error e, c2)
      | .ok echoVal =>
        let c3 : Context :=
          match echoVal with
          | some v => { c2 with rrc := { c2.rrc with echo_opt_val := v, reboot := false } }
          | none => c2
        match create_nonce c3.sc.sender_id piv c3.cc.common_iv with
        | .error e => (.error e, c3)
        | .ok nonce =>
          let c4 : Context := { c3 with rrc := { c3.rrc with nonce := nonce } }
          let len := get_oscore_opt_val_len piv c4.sc.sender_id c4.cc.id_context
          if OSCORE_OPT_VALUE_LEN < len then (.error .oscore_valuelen_to_long_error, c4)
          else
            match oscore_option_generate piv c4.sc.sender_id c4.cc.id_context len with
            | .error e => (.error e, c4)
            | .ok val => (.ok ⟨OSCORE, len, val⟩, c4)
  else
    (.ok ⟨OSCORE, 0, []⟩, c)

/-- Embedding of `plaintext_setup` (coap2oscore.c lines 215-257): writes the original
code byte, the serialized E-options and, when a payload is present, the
0xFF marker and the payload, into a buffer of exactly `plaintext_len`
bytes; the scratch-buffer bound and the `_memcpy_s` destination-size
checks of the source are kept. -/
def plaintext_setup (pkt : OCoapPacket) (eOpts : List OCoapOption)
    (plaintext_len : Nat) : Except Err (List Nat) :=
  let e_opt_serial_len := eOpts.foldl (fun a o => (a + 1 + 2 + 2 + o.len) % 65536) 0
  if E_OPTIONS_BUFF_MAX_LEN < e_opt_serial_len then .error .buffer_to_small
  else
    let serial := options_into_byte_string eOpts
    if plaintext_len - 1 < serial.length then .error .dest_buffer_to_small
    else if pkt.payload.length ≠ 0 then
      if plaintext_len - (serial.length + 2) < pkt.payload.length then
        .error .dest_buffer_to_small
      else .ok (padTo plaintext_len ((pkt.header.code % 256 :: serial) ++ 255 :: pkt.payload))
    else .ok (padTo plaintext_len (pkt.header.code % 256 :: serial))

/-- Position at which `oscore_pkg_generate` inserts the OSCORE option
(coap2oscore.c lines 429-436): the first index whose option number exceeds
`OSCORE`, or the option count when there is none. -/
def oscorePos : List OCoapOption → Nat
  | [] => 0
  | u :: us => if OSCORE < u.option_number then 0 else oscorePos us + 1

/-- Delta re-assignment loop of `oscore_pkg_generate` (coap2oscore.c lines
441-469): each output slot receives `option_number - temp_opt_number_sum`
as a uint16 two's-complement difference, and the uint8 running sum
accumulates the emitted deltas. -/
def assignDeltas : Nat → List OCoapOption → List OCoapOption
  | _, [] => []
  | sum, o :: rest =>
    let d := (o.option_number + 65536 - sum) % 65536
    ⟨d, o.len, o.value, o.option_number⟩ :: assignDeltas ((sum + d) % 256) rest

/-- Embedding of `oscore_pkg_generate` (coap2oscore.c lines 393-475): copies the header
fields, forces the outer code (POST/FETCH for requests, Changed/Content for
responses, depending on observe), inserts the OSCORE option among the
U-options at `oscorePos`, re-assigns the deltas, and sets the ciphertext as
payload. -/
def oscore_pkg_generate (inPkt : OCoapPacket) (uOpts : List OCoapOption)
    (ciphertext : List Nat) (osc : OscoreOption) : OCoapPacket :=
  let observe := is_observe uOpts
  let code :=
    if is_request inPkt then
      if observe then CODE_REQ_FETCH else CODE_REQ_POST
    else
      if observe then CODE_RESP_CONTENT else CODE_RESP_CHANGED
  let pos := oscorePos uOpts
  let oscEntry : OCoapOption := ⟨0, osc.len, osc.value, osc.option_number⟩
  { header := { inPkt.header with code := code },
    token := if inPkt.header.TKL = 0 then [] else inPkt.token,
    options := assignDeltas 0 (uOpts.take pos ++ oscEntry :: uOpts.drop pos),
    payload := ciphertext }

/-- The AEAD encryption primitive (`oscore_cose_encrypt`, not under `src/`;
the spec places the cipher itself outside the core): a function from
plaintext, nonce, additional data and key to a ciphertext or an error. -/
def AeadOracle : Type :=
  List Nat → List Nat → List Nat → List Nat → Except Err (List Nat)

/-- Embedding of `coap2oscore` (coap2oscore.c lines 490-608), parameterized by the AEAD
primitive: parse, empty-ACK bypass, option split, plaintext construction,
OSCORE-option branch (with the sequence-number increment), AAD
construction from the cached request kid/piv, AEAD encryption, packet
generation and serialization.  The returned context carries every mutation
performed before a failure. -/
def coap2oscore (enc : AeadOracle) (buf : List Nat) (c : Context) :
    Except Err (List Nat) × Context :=
  match buf2coap buf with
  | .error e => (.error e, c)
  | .ok pkt =>
    if pkt.header.code = CODE_EMPTY ∧ pkt.header.type = TYPE_ACK then (.ok buf, c)
    else
      match inner_outer_option_split pkt with
      | .error e => (.error e, c)
      | .ok st =>
        let plaintext_len := 1 + st.eLen
          + (if pkt.payload.length ≠ 0 then 1 + pkt.payload.length else 0)
        if MAX_PLAINTEXT_LEN < plaintext_len then (.error .buffer_to_small, c)
        else
          match plaintext_setup pkt st.eOpts plaintext_len with
          | .error e => (.error e, c)
          | .ok plaintext =>
            match oscore_option_branch pkt st.eOpts st.uOpts c with
            | (.error e, c1) => (.error e, c1)
            | (.ok osc, c1) =>
              let aad := create_aad c1.cc.aead_alg c1.rrc.request_kid c1.rrc.request_piv
              let ciphertext_len := plaintext.length + AUTH_TAG_LEN
              if MAX_CIPHERTEXT_LEN < ciphertext_len then (.error .buffer_to_small, c1)
              else
                match enc plaintext c1.rrc.nonce aad c1.sc.sender_key with
                | .error e => (.error e, c1)
                | .ok ct =>
                  (.ok (coap2buf (oscore_pkg_generate pkt st.uOpts ct osc)), c1)

/-- Boolean success test for `Except`. -/
def exceptOk {α : Type} : Except Err α → Bool
  | .ok _ => true
  | .error _ => false

/-- An AEAD primitive that always succeeds, appending a zero tag. -/
def okAead : AeadOracle :=
  fun pt _ _ _ => .ok (pt ++ List.replicate AUTH_TAG_LEN 0)

/-- An AEAD primitive that always fails. -/
def failAead : AeadOracle := fun _ _ _ _ => .error .aead_failure

/-- Projection keeping an Observe entry of an option list: its length and
value (used to compare the split's E- and U-lists). -/
def obsProj (o : OCoapOption) : Option (Nat × List Nat) :=
  if o.option_number = OBSERVE then some (o.len, o.value) else none

/-- The Observe occurrences of an input option list, as (uint8-truncated
length, value) pairs, where the absolute option numbers are prefix sums of
the deltas starting from `start`, reduced modulo 256 at every step. -/
def obsOcc (start : Nat) : List OCoapOption → List (Nat × List Nat)
  | [] => []
  | o :: os =>
    let nr := (start + o.delta) % 256
    (if nr = OBSERVE then [(o.len % 256, o.value)] else []) ++ obsOcc nr os

/-- Projection of an option record to its (number, length, value) triple,
forgetting the wire delta. -/
def optProj (o : OCoapOption) : Nat × Nat × List Nat :=
  (o.option_number, o.len, o.value)

/-- Boolean test that a list of numbers is nondecreasing. -/
def nondec : List Nat → Bool
  | [] => true
  | [_] => true
  | a :: b :: l => a ≤ b && nondec (b :: l)

/-- A minimal concrete CoAP request buffer: CON GET, no token, no options,
no payload (header byte 0x40, code 0.01, message id 0). -/
def reqBytes : List Nat := [64, 1, 0, 0]

/-- The parse of `reqBytes`. -/
def reqPkt : OCoapPacket := ⟨⟨1, 0, 0, 1, 0⟩, [], [], []⟩

/-- Lower bound of a number against the head of a list (vacuous for `[]`). -/
def leHead (a : Nat) : List Nat → Bool
  | [] => true
  | b :: _ => a ≤ b

/-- Insertion position of the OSCORE option in terms of the number list. -/
def posNat : List Nat → Nat
  | [] => 0
  | n :: ns => if OSCORE < n then 0 else posNat ns + 1

/-- Nonce value computed by `create_nonce` for an empty sender id. -/
def nonceOf (piv civ : List Nat) : List Nat :=
  List.zipWith (fun a b => a ^^^ b)
    (0 :: (List.replicate 5 0 ++ (List.replicate (7 - piv.length) 0 ++ piv))) civ

deriving instance DecidableEq for Except

theorem splitStep_tempNr (r : Bool) (s : SplitState) (o : OCoapOption) :
    (splitStep r s o).tempNr = (s.tempNr + o.delta) % 256 := by
  unfold splitStep
  by_cases h1 : (s.tempNr + o.delta) % 256 = OBSERVE
  · simp only [h1, if_true, if_pos]
  · by_cases h2 : is_class_e ((s.tempNr + o.delta) % 256)
    · simp only [h1, h2, if_false, if_true, ite_true, ite_false, if_neg, not_false_iff]
    · simp [h1, h2]

theorem foldl_splitStep_tempNr (r : Bool) :
    ∀ (opts : List OCoapOption) (s : SplitState), s.tempNr < 256 →
      (opts.foldl (splitStep r) s).tempNr
        = (s.tempNr + (opts.map (fun o => o.delta)).sum) % 256
  | [], s, h => by simpa using (Nat.mod_eq_of_lt h).symm
  | o :: os, s, h => by
    rw [List.foldl_cons,
      foldl_splitStep_tempNr r os (splitStep r s o)
        (by rw [splitStep_tempNr]; exact Nat.mod_lt _ (by norm_num)),
      splitStep_tempNr, List.map_cons, List.sum_cons]
    omega

/-- C10: the option split accumulates the absolute option number in 8-bit
arithmetic: after processing any first `i` options of the input packet, the
`temp_option_nr` accumulator (the number used for the Observe comparison and
the E/U classification of the next option and recorded in the produced
entries) equals the true delta prefix sum reduced modulo 256. -/
theorem c10_split_numbers_mod256 (pkt : OCoapPacket) (i : Nat) :
    ((pkt.options.take i).foldl (splitStep (is_request pkt)) initSplit).tempNr
      = ((pkt.options.take i).map (fun o => o.delta)).sum % 256 := by
  rw [foldl_splitStep_tempNr (is_request pkt) _ initSplit (by norm_num [initSplit])]
  simp [initSplit]

/-- C9: evaluation of the extension-byte accounting at the inputs where it
deviates from the CoAP rule.  For the value 13 the split charges 0 extra
bytes while the wire format needs 1, and for 250 it charges 2 while the
wire format needs 1; consequently, for a packet with a single E-option of
delta 13, `e_options_len` is 1 while the serialized E-options occupy 2
bytes. -/
theorem c9_extension_bytes_evaluation :
    delta_extra_bytes 13 = 0 ∧ coap_extension_bytes 13 = 1
    ∧ delta_extra_bytes 250 = 2 ∧ coap_extension_bytes 250 = 1
    ∧ inner_outer_option_split ⟨⟨1, 0, 0, 1, 0⟩, [], [⟨13, 0, [], 13⟩], []⟩
        = .ok ⟨13, 13, 0, 1, [⟨13, 0, [], 13⟩], []⟩
    ∧ (options_into_byte_string [⟨13, 0, [], 13⟩]).length = 2 := by
  decide

theorem splitStep_uObs (r : Bool) (s : SplitState) (o : OCoapOption) :
    ((splitStep r s o).uOpts).filterMap obsProj
      = s.uOpts.filterMap obsProj
        ++ (if (s.tempNr + o.delta) % 256 = OBSERVE
            then [(o.len % 256, o.value)] else []) := by
  unfold splitStep
  by_cases h1 : (s.tempNr + o.delta) % 256 = OBSERVE
  · simp [h1, obsProj]
  · by_cases h2 : is_class_e ((s.tempNr + o.delta) % 256)
    · simp [h1, h2]
    · simp [h1, h2, obsProj]

theorem splitStep_eObs (r : Bool) (s : SplitState) (o : OCoapOption) :
    ((splitStep r s o).eOpts).filterMap obsProj
      = s.eOpts.filterMap obsProj
        ++ (if (s.tempNr + o.delta) % 256 = OBSERVE
            then [if r then (o.len % 256, o.value) else (0, [])] else []) := by
  unfold splitStep
  by_cases h1 : (s.tempNr + o.delta) % 256 = OBSERVE
  · cases r <;> simp [h1, obsProj]
  · by_cases h2 : is_class_e ((s.tempNr + o.delta) % 256)
    · simp [h1, h2, obsProj]
    · simp [h1, h2]

theorem foldl_splitStep_uObs (r : Bool) :
    ∀ (os : List OCoapOption) (s : SplitState),
      ((os.foldl (splitStep r) s).uOpts).filterMap obsProj
        = s.uOpts.filterMap obsProj ++ obsOcc s.tempNr os
  | [], s => by simp [obsOcc]
  | o :: os, s => by
    rw [List.foldl_cons, foldl_splitStep_uObs r os (splitStep r s o),
      splitStep_uObs, splitStep_tempNr]
    simp only [obsOcc, List.append_assoc]

theorem foldl_splitStep_eObs (r : Bool) :
    ∀ (os : List OCoapOption) (s : SplitState),
      ((os.foldl (splitStep r) s).eOpts).filterMap obsProj
        = s.eOpts.filterMap obsProj
          ++ (if r then obsOcc s.tempNr os
              else (obsOcc s.tempNr os).map (fun _ => (0, [])))
  | [], s => by cases r <;> simp [obsOcc]
  | o :: os, s => by
    rw [List.foldl_cons, foldl_splitStep_eObs r os (splitStep r s o),
      splitStep_eObs, splitStep_tempNr]
    cases r <;> by_cases h1 : (s.tempNr + o.delta) % 256 = OBSERVE <;>
      simp [obsOcc, h1]

/-- C2 (amended): for every packet accepted by the option split, the
Observe occurrences of the U-list are exactly the Observe occurrences of
the input (with their original values), and the Observe occurrences of the
E-list are the same occurrences when the packet is a request, and the same
number of occurrences with elided value (length 0, empty value) when the
packet is a response — i.e. in a response Observe appears in both lists,
not only in U. -/
theorem c2_observe_split (pkt : OCoapPacket) (st : SplitState)
    (h : inner_outer_option_split pkt = .ok st) :
    st.uOpts.filterMap obsProj = obsOcc 0 pkt.options
    ∧ st.eOpts.filterMap obsProj
        = (if is_request pkt then obsOcc 0 pkt.options
           else (obsOcc 0 pkt.options).map (fun _ => (0, []))) := by
  unfold inner_outer_option_split at h
  split at h
  · exact absurd h (by simp)
  · have hst : pkt.options.foldl (splitStep (is_request pkt)) initSplit = st := by
      injection h
    constructor
    · have := foldl_splitStep_uObs (is_request pkt) pkt.options initSplit
      rw [hst] at this
      simpa [initSplit] using this
    · have := foldl_splitStep_eObs (is_request pkt) pkt.options initSplit
      rw [hst] at this
      simpa [initSplit] using this

/-- C2, witness: the amended statement evaluated on a concrete request with
one Observe option (delta 6, value `[0]`). -/
theorem c2_observe_split_witness :
    (⟨6, 6, 6, 2, [⟨6, 1, [0], 6⟩], [⟨6, 1, [0], 6⟩]⟩ : SplitState).uOpts.filterMap obsProj
        = obsOcc 0 [⟨6, 1, [0], 6⟩]
    ∧ (⟨6, 6, 6, 2, [⟨6, 1, [0], 6⟩], [⟨6, 1, [0], 6⟩]⟩ : SplitState).eOpts.filterMap obsProj
        = (if is_request ⟨⟨1, 0, 0, 1, 0⟩, [], [⟨6, 1, [0], 6⟩], []⟩
           then obsOcc 0 [⟨6, 1, [0], 6⟩]
           else (obsOcc 0 [⟨6, 1, [0], 6⟩]).map (fun _ => (0, []))) :=
  c2_observe_split ⟨⟨1, 0, 0, 1, 0⟩, [], [⟨6, 1, [0], 6⟩], []⟩
    ⟨6, 6, 6, 2, [⟨6, 1, [0], 6⟩], [⟨6, 1, [0], 6⟩]⟩ (by decide)

/-- C2, counterexample to the claim as stated: a response (code 2.05) with
an Observe option (delta 6, value `[42]`) produces an E-list that does
contain an Observe entry (with elided value), contradicting "in a response
Observe appears only in the U-list and not in the E-list". -/
theorem c2_observe_response_in_e_list :
    is_request ⟨⟨1, 0, 0, 69, 0⟩, [], [⟨6, 1, [42], 6⟩], []⟩ = false
    ∧ inner_outer_option_split ⟨⟨1, 0, 0, 69, 0⟩, [], [⟨6, 1, [42], 6⟩], []⟩
        = .ok ⟨6, 6, 6, 1, [⟨6, 0, [], 6⟩], [⟨6, 1, [42], 6⟩]⟩ := by
  decide

theorem cborStrDecodeOne_encode (base : Nat) (b rest : List Nat)
    (h : b.length < 2 ^ 32) :
    cborStrDecodeOne base (cborStrEncode base b ++ rest) = some (b, rest) := by
  unfold cborStrEncode cborStrHeader
  by_cases h24 : b.length < 24
  · rw [if_pos h24]
    unfold cborStrDecodeOne
    simp only [List.cons_append, List.nil_append]
    split_ifs with h1 h2 <;> try (exfalso; simp only [List.length_append] at *; omega)
    have hn : base + b.length - base = b.length := by omega
    rw [hn, List.take_left, List.drop_left]
  · rw [if_neg h24]
    by_cases h256 : b.length < 256
    · rw [if_pos h256]
      unfold cborStrDecodeOne
      simp only [List.cons_append, List.nil_append]
      split_ifs with h1 h2 h3 <;> try (exfalso; simp only [List.length_append] at *; omega)
      rw [List.take_left, List.drop_left]
    · rw [if_neg h256]
      by_cases h65536 : b.length < 65536
      · rw [if_pos h65536]
        unfold cborStrDecodeOne
        simp only [List.cons_append, List.nil_append]
        split_ifs with h1 h2 h3 h4 <;> try (exfalso; simp only [List.length_append] at *; omega)
        have hn : b.length / 256 * 256 + b.length % 256 = b.length := by omega
        rw [hn, List.take_left, List.drop_left]
      · rw [if_neg h65536]
        unfold cborStrDecodeOne
        simp only [List.cons_append, List.nil_append]
        split_ifs with h1 h2 h3 h4 h5 <;> try (exfalso; simp only [List.length_append] at *; omega)
        have hn : b.length / 2 ^ 24 % 256 * 2 ^ 24 + b.length / 65536 % 256 * 65536
            + b.length / 256 % 256 * 256 + b.length % 256 = b.length := by omega
        rw [hn, List.take_left, List.drop_left]

theorem cborStrEncode_ne_nil (base : Nat) (b : List Nat) :
    cborStrEncode base b ≠ [] := by
  unfold cborStrEncode cborStrHeader
  split_ifs <;> simp

/-- C1 (amended): the byte string hashed to produce TH_3 is the CBOR
encoding of exactly the two items TH_2 and CIPHERTEXT_2, in this order: for
every input, decoding the output of `encode_th3` as a CBOR sequence of byte
strings yields `[TH_2, CIPHERTEXT_2]` with nothing left over. -/
theorem c1_th3_hash_input_items (th_2 ct2 : List Nat)
    (h2 : th_2.length < 2 ^ 32) (hc : ct2.length < 2 ^ 32) :
    bstrSeqDecode 2 (encode_th3 th_2 ct2) = some [th_2, ct2] := by
  have e1 : cborStrDecodeOne 64 (encode_th3 th_2 ct2)
      = some (th_2, bstrx_encode ct2) :=
    cborStrDecodeOne_encode 64 th_2 (bstrx_encode ct2) h2
  have e2 : cborStrDecodeOne 64 (bstrx_encode ct2) = some (ct2, []) := by
    have := cborStrDecodeOne_encode 64 ct2 [] hc
    rwa [List.append_nil] at this
  have n1 : encode_th3 th_2 ct2 ≠ [] := by
    unfold encode_th3
    intro hnil
    exact cborStrEncode_ne_nil 64 th_2 (List.append_eq_nil.mp hnil).1
  have n2 : bstrx_encode ct2 ≠ [] := cborStrEncode_ne_nil 64 ct2
  unfold bstrSeqDecode
  rw [if_neg n1, e1]
  dsimp only
  unfold bstrSeqDecode
  rw [if_neg n2, e2]
  rfl

/-- C1, witness: the amended statement evaluated at concrete inputs. -/
theorem c1_th3_hash_input_items_witness :
    bstrSeqDecode 2 (encode_th3 [1, 2] [3]) = some [[1, 2], [3]] :=
  c1_th3_hash_input_items [1, 2] [3] (by norm_num) (by norm_num)

/-- C1, counterexample to the claim as stated: at the concrete input
(TH_2 = `[170]`, CIPHERTEXT_2 = `[187]`) the hash input built by
`encode_th3` is a CBOR sequence of two items, not of three, and it differs
from the spec-described three-item serialization of these bytes. -/
theorem c1_th3_two_items_not_three :
    bstrSeqDecode 3 (encode_th3 [170] [187]) = some [[170], [187]]
    ∧ ([[170], [187]] : List (List Nat)).length ≠ 3
    ∧ encode_th3 [170] [187] ≠ th3_hash_input_spec [170] [187] [] := by
  decide

theorem encStructureDecode_encode (ctx prot aad : List Nat)
    (h1 : ctx.length < 2 ^ 32) (h2 : prot.length < 2 ^ 32)
    (h3 : aad.length < 2 ^ 32) :
    encStructureDecode (cose_enc_structure_encode ctx prot aad)
      = some (ctx, prot, aad) := by
  have e3 : cborStrDecodeOne 64 (cborStrEncode 64 aad) = some (aad, []) := by
    have := cborStrDecodeOne_encode 64 aad [] h3
    rwa [List.append_nil] at this
  unfold cose_enc_structure_encode encStructureDecode tstrx_encode bstrx_encode
  dsimp only
  rw [if_pos rfl, List.append_assoc, cborStrDecodeOne_encode 96 ctx _ h1]
  dsimp only
  rw [cborStrDecodeOne_encode 64 prot _ h2]
  dsimp only
  rw [e3]
  rfl

/-- C8: for every transcript hash, `associated_data_encode` produces the
serialized Enc_structure `["Encrypt0", h'', thX]`: it equals the
spec-described serialization, and decoding it yields the context string
"Encrypt0", the empty protected header and the transcript hash. -/
theorem c8_associated_data (thX : List Nat) (h : thX.length < 2 ^ 32) :
    associated_data_encode thX = enc_structure_spec thX
    ∧ encStructureDecode (associated_data_encode thX)
        = some (encrypt0_str, [], thX) :=
  ⟨rfl, encStructureDecode_encode encrypt0_str [] thX (by norm_num [encrypt0_str]) (by norm_num) h⟩

/-- C8, witness: the statement evaluated at the concrete hash `[171]`. -/
theorem c8_associated_data_witness :
    associated_data_encode [171] = enc_structure_spec [171]
    ∧ encStructureDecode (associated_data_encode [171])
        = some (encrypt0_str, [], [171]) :=
  c8_associated_data [171] (by norm_num)

theorem assignDeltas_map_optProj :
    ∀ (sum : Nat) (os : List OCoapOption),
      (assignDeltas sum os).map optProj = os.map optProj
  | _, [] => rfl
  | sum, o :: os => by
    unfold assignDeltas
    simp only [List.map_cons, assignDeltas_map_optProj _ os]
    rfl

theorem assignDeltas_map_num :
    ∀ (sum : Nat) (os : List OCoapOption),
      (assignDeltas sum os).map (fun o => o.option_number)
        = os.map (fun o => o.option_number)
  | _, [] => rfl
  | sum, o :: os => by
    unfold assignDeltas
    simp only [List.map_cons, assignDeltas_map_num _ os]

theorem nondec_cons (a : Nat) (l : List Nat) :
    nondec (a :: l) = (leHead a l && nondec l) := by
  cases l <;> simp [nondec, leHead]

theorem oscorePos_eq_posNat :
    ∀ us : List OCoapOption,
      oscorePos us = posNat (us.map (fun o => o.option_number))
  | [] => rfl
  | u :: us => by
    unfold oscorePos posNat
    simp only [List.map_cons]
    rw [oscorePos_eq_posNat us]

theorem nondec_insert9 :
    ∀ ns : List Nat, nondec ns = true →
      nondec (ns.take (posNat ns) ++ OSCORE :: ns.drop (posNat ns)) = true := by
  intro ns
  induction ns with
  | nil => intro _; rfl
  | cons n ns ih =>
    intro h
    by_cases h9 : OSCORE < n
    · unfold posNat
      rw [if_pos h9]
      simp only [List.take_zero, List.drop_zero, List.nil_append]
      rw [nondec_cons]
      have : leHead OSCORE (n :: ns) = true := by
        simp [leHead, OSCORE] at h9 ⊢
        omega
      rw [this, h]
      rfl
    · unfold posNat
      rw [if_neg h9]
      simp only [List.take_succ_cons, List.drop_succ_cons, List.cons_append]
      rw [nondec_cons] at h
      obtain ⟨hle, hnd⟩ := (Bool.and_eq_true _ _).mp h
      rw [nondec_cons, ih hnd, Bool.and_true]
      cases ns with
      | nil =>
        simp [leHead, OSCORE] at h9 ⊢
        omega
      | cons m ms =>
        unfold posNat
        by_cases h9m : OSCORE < m
        · rw [if_pos h9m]
          simp only [List.take_zero, List.drop_zero, List.nil_append]
          simp [leHead, OSCORE] at h9 ⊢
          omega
        · rw [if_neg h9m]
          simp only [List.take_succ_cons, List.cons_append]
          simpa [leHead] using hle

/-- C6: `oscore_pkg_generate` forces the outer code to POST for requests
without observe, FETCH for requests with observe, Changed for responses
without observe and Content for responses with observe; it inserts the
OSCORE option among the U-options at the first position whose option
number exceeds the OSCORE number (keeping numbers, lengths and values of
all U-options); and when the U-options are sorted by ascending option
number the resulting option list is sorted by ascending option number. -/
theorem c6_outer_code_and_option_position (inPkt : OCoapPacket)
    (us : List OCoapOption) (ct : List Nat) (osc : OscoreOption)
    (hosc : osc.option_number = OSCORE)
    (h : nondec (us.map (fun o => o.option_number)) = true) :
    (oscore_pkg_generate inPkt us ct osc).header.code
      = (if is_request inPkt then
           if is_observe us then CODE_REQ_FETCH else CODE_REQ_POST
         else
           if is_observe us then CODE_RESP_CONTENT else CODE_RESP_CHANGED)
    ∧ (oscore_pkg_generate inPkt us ct osc).options.map optProj
        = (us.map optProj).take (oscorePos us)
          ++ (osc.option_number, osc.len, osc.value)
            :: (us.map optProj).drop (oscorePos us)
    ∧ nondec ((oscore_pkg_generate inPkt us ct osc).options.map
        (fun o => o.option_number)) = true := by
  refine ⟨rfl, ?_, ?_⟩
  · show (assignDeltas 0 (us.take (oscorePos us)
        ++ ⟨0, osc.len, osc.value, osc.option_number⟩ :: us.drop (oscorePos us))).map optProj = _
    rw [assignDeltas_map_optProj]
    simp [optProj, List.map_take, List.map_drop]
  · show nondec ((assignDeltas 0 (us.take (oscorePos us)
        ++ ⟨0, osc.len, osc.value, osc.option_number⟩ :: us.drop (oscorePos us))).map
        (fun o => o.option_number)) = true
    rw [assignDeltas_map_num]
    simp only [List.map_append, List.map_cons, List.map_take, List.map_drop, hosc]
    rw [oscorePos_eq_posNat]
    exact nondec_insert9 (us.map (fun o => o.option_number)) h

/-- C6, witness: the statement evaluated on a concrete request with two
sorted U-options (numbers 4 and 11) and an OSCORE option of length 2. -/
theorem c6_outer_code_and_option_position_witness :
    (oscore_pkg_generate ⟨⟨1, 0, 0, 1, 0⟩, [], [], []⟩
        [⟨4, 0, [], 4⟩, ⟨7, 1, [7], 11⟩] [1, 2] ⟨9, 2, [9, 48]⟩).header.code
      = (if is_request ⟨⟨1, 0, 0, 1, 0⟩, [], [], []⟩ then
           if is_observe [⟨4, 0, [], 4⟩, ⟨7, 1, [7], 11⟩] then CODE_REQ_FETCH
           else CODE_REQ_POST
         else
           if is_observe [⟨4, 0, [], 4⟩, ⟨7, 1, [7], 11⟩] then CODE_RESP_CONTENT
           else CODE_RESP_CHANGED)
    ∧ (oscore_pkg_generate ⟨⟨1, 0, 0, 1, 0⟩, [], [], []⟩
        [⟨4, 0, [], 4⟩, ⟨7, 1, [7], 11⟩] [1, 2] ⟨9, 2, [9, 48]⟩).options.map optProj
        = (([⟨4, 0, [], 4⟩, ⟨7, 1, [7], 11⟩] : List OCoapOption).map optProj).take
            (oscorePos [⟨4, 0, [], 4⟩, ⟨7, 1, [7], 11⟩])
          ++ ((⟨9, 2, [9, 48]⟩ : OscoreOption).option_number,
              (⟨9, 2, [9, 48]⟩ : OscoreOption).len,
              (⟨9, 2, [9, 48]⟩ : OscoreOption).value)
            :: (([⟨4, 0, [], 4⟩, ⟨7, 1, [7], 11⟩] : List OCoapOption).map optProj).drop
              (oscorePos [⟨4, 0, [], 4⟩, ⟨7, 1, [7], 11⟩])
    ∧ nondec ((oscore_pkg_generate ⟨⟨1, 0, 0, 1, 0⟩, [], [], []⟩
        [⟨4, 0, [], 4⟩, ⟨7, 1, [7], 11⟩] [1, 2] ⟨9, 2, [9, 48]⟩).options.map
        (fun o => o.option_number)) = true :=
  c6_outer_code_and_option_position ⟨⟨1, 0, 0, 1, 0⟩, [], [], []⟩
    [⟨4, 0, [], 4⟩, ⟨7, 1, [7], 11⟩] [1, 2] ⟨9, 2, [9, 48]⟩ rfl (by decide)

theorem natToBytesAux_length :
    ∀ (f k n : Nat), n < 256 ^ k → k ≤ f → (natToBytesAux f n).length ≤ k
  | 0, _, _, _, _ => by simp [natToBytesAux]
  | f + 1, k, n, hn, hk => by
    unfold natToBytesAux
    by_cases h0 : n = 0
    · simp [h0]
    · rw [if_neg h0]
      cases k with
      | zero =>
        exfalso
        apply h0
        have h1 : (256 : Nat) ^ 0 = 1 := pow_zero 256
        omega
      | succ k =>
        have h2 : n < 256 * 256 ^ k := by
          rw [pow_succ, Nat.mul_comm] at hn
          exact hn
        have h3 := natToBytesAux_length f k (n / 256) (Nat.div_lt_of_lt_mul h2) (by omega)
        simp only [List.length_append, List.length_cons, List.length_nil]
        omega

theorem pivOf_length_le (ssn : Nat) (h : ssn ≤ MAX_SSN) : (pivOf ssn).length ≤ 5 := by
  unfold pivOf
  by_cases h0 : ssn = 0
  · simp [h0]
  · rw [if_neg h0]
    refine natToBytesAux_length 8 5 ssn ?_ (by omega)
    have : MAX_SSN < 256 ^ 5 := by norm_num [MAX_SSN]
    omega

theorem pivOf_length_pos (ssn : Nat) : 1 ≤ (pivOf ssn).length := by
  unfold pivOf
  by_cases h0 : ssn = 0
  · simp [h0]
  · rw [if_neg h0]
    unfold natToBytes natToBytesAux
    rw [if_neg h0]
    simp

theorem sender_seq_num2piv_ok (ssn : Nat) (h : ssn ≤ MAX_SSN) :
    sender_seq_num2piv ssn = .ok (pivOf ssn) := by
  unfold sender_seq_num2piv
  rw [if_neg (by omega)]

theorem sender_seq_num2piv_err (ssn : Nat) (h : MAX_SSN < ssn) :
    sender_seq_num2piv ssn = .error .ssn_exhausted := by
  unfold sender_seq_num2piv
  rw [if_pos h]

theorem create_nonce_empty_sid (piv civ : List Nat) (h : piv.length ≤ 7) :
    create_nonce [] piv civ = .ok (nonceOf piv civ) := by
  unfold create_nonce nonceOf
  rw [if_neg (by simp), if_neg (by omega)]
  rfl

theorem get_oscore_opt_val_len_piv_only (piv : List Nat)
    (h5 : piv.length ≤ 5) (h1 : 1 ≤ piv.length) :
    get_oscore_opt_val_len piv [] [] = piv.length + 1 := by
  unfold get_oscore_opt_val_len
  simp only [List.length_nil, Nat.add_zero]
  rw [if_neg (show ¬((0 : Nat) ≠ 0) by simp)]
  rw [Nat.mod_eq_of_lt (show piv.length < 256 by omega)]
  rw [if_pos (show piv.length ≠ 0 by omega)]
  rw [Nat.mod_eq_of_lt (show piv.length + 1 < 256 by omega)]

theorem oscore_option_generate_piv_only (piv : List Nat)
    (h5 : piv.length ≤ 5) (h1 : 1 ≤ piv.length) :
    oscore_option_generate piv [] [] (piv.length + 1)
      = .ok (padTo (piv.length + 1)
          ((piv.length ||| COMP_OSCORE_OPT_KID_K_MASK) :: piv)) := by
  unfold oscore_option_generate
  have hp : piv.length ≠ 0 := by omega
  simp only [List.length_nil]
  rw [if_neg (show ¬(piv.length + 1 = 0) by omega)]
  rw [if_neg (show ¬(piv.length ≠ 0 ∧ piv.length + 1 - 1 < piv.length) by omega)]
  simp [hp, COMP_OSCORE_OPT_KID_K_MASK,
    Nat.mod_eq_of_lt (show piv.length < 256 by omega)]

theorem oscore_option_branch_request (pkt : OCoapPacket)
    (eo uo : List OCoapOption) (hreq : is_request pkt = true)
    (key civ n0 rkid rpiv echo : List Nat) (alg ssn : Nat)
    (hssn : ssn ≤ MAX_SSN) :
    oscore_option_branch pkt eo uo
        ⟨⟨[], key, ssn⟩, ⟨civ, [], alg⟩, ⟨n0, rkid, rpiv, echo, false⟩⟩
      = (.ok ⟨OSCORE, (pivOf ssn).length + 1,
            padTo ((pivOf ssn).length + 1)
              (((pivOf ssn).length ||| COMP_OSCORE_OPT_KID_K_MASK) :: pivOf ssn)⟩,
         ⟨⟨[], key, (ssn + 1) % 2 ^ 64⟩, ⟨civ, [], alg⟩,
          ⟨nonceOf (pivOf ssn) civ, [], pivOf ssn, echo, false⟩⟩) := by
  have h5 := pivOf_length_le ssn hssn
  have h1 := pivOf_length_pos ssn
  unfold oscore_option_branch
  simp only [hreq, Bool.true_or, if_true]
  rw [sender_seq_num2piv_ok ssn hssn]
  dsimp only
  rw [if_neg (show ¬(false = true) by simp)]
  dsimp only
  rw [create_nonce_empty_sid (pivOf ssn) civ (by omega)]
  dsimp only
  rw [get_oscore_opt_val_len_piv_only (pivOf ssn) h5 h1]
  rw [if_neg (show ¬(OSCORE_OPT_VALUE_LEN < (pivOf ssn).length + 1) by
    simp only [OSCORE_OPT_VALUE_LEN]; omega)]
  rw [oscore_option_generate_piv_only (pivOf ssn) h5 h1]

theorem oscore_option_branch_exhausted (pkt : OCoapPacket)
    (eo uo : List OCoapOption) (hreq : is_request pkt = true)
    (sid key : List Nat) (ssn : Nat) (cc : CommonCtx) (rrc : ReqRespCtx)
    (hssn : MAX_SSN < ssn) :
    oscore_option_branch pkt eo uo ⟨⟨sid, key, ssn⟩, cc, rrc⟩
      = (.error .ssn_exhausted, ⟨⟨sid, key, (ssn + 1) % 2 ^ 64⟩, cc, rrc⟩) := by
  unfold oscore_option_branch
  simp only [hreq, Bool.true_or, if_true]
  rw [sender_seq_num2piv_err ssn hssn]

theorem coap2oscore_reqBytes (enc : AeadOracle) (c : Context) :
    coap2oscore enc reqBytes c
      = (match oscore_option_branch reqPkt [] [] c with
         | (.error e, c1) => (.error e, c1)
         | (.ok osc, c1) =>
           match enc [1] c1.rrc.nonce
               (create_aad c1.cc.aead_alg c1.rrc.request_kid c1.rrc.request_piv)
               c1.sc.sender_key with
           | .error e => (.error e, c1)
           | .ok ct => (.ok (coap2buf (oscore_pkg_generate reqPkt [] ct osc)), c1)) :=
  rfl

/-- C4 (amended): the sender sequence number is committed before
encryption: on a request, `coap2oscore` increments the context's SSN
before the AEAD runs, so when the AEAD fails the call returns an error and
the SSN is nevertheless one larger than before the call (not unchanged). -/
theorem c4_ssn_committed_before_encryption (c : Context)
    (hsid : c.sc.sender_id = []) (hidc : c.cc.id_context = [])
    (hreb : c.rrc.reboot = false) (hssn : c.sc.sender_seq_num ≤ MAX_SSN) :
    (coap2oscore failAead reqBytes c).1 = .error .aead_failure
    ∧ (coap2oscore failAead reqBytes c).2.sc.sender_seq_num
        = c.sc.sender_seq_num + 1 := by
  obtain ⟨⟨sid, key, ssn⟩, ⟨civ, idc, alg⟩, ⟨n0, rkid, rpiv, echo, rb⟩⟩ := c
  dsimp only at hsid hidc hreb hssn ⊢
  subst hsid hidc hreb
  rw [coap2oscore_reqBytes,
    oscore_option_branch_request reqPkt [] [] rfl key civ n0 rkid rpiv echo alg ssn hssn]
  dsimp only [failAead]
  refine ⟨rfl, ?_⟩
  dsimp only
  have h64 : ssn + 1 < 2 ^ 64 := by simp only [MAX_SSN] at hssn; omega
  exact Nat.mod_eq_of_lt h64

/-- C4, witness: the amended statement evaluated on a concrete context
with SSN 5. -/
theorem c4_ssn_committed_before_encryption_witness :
    (coap2oscore failAead reqBytes
        ⟨⟨[], [], 5⟩, ⟨List.replicate 13 0, [], 10⟩, ⟨[], [], [], [], false⟩⟩).1
      = .error .aead_failure
    ∧ (coap2oscore failAead reqBytes
        ⟨⟨[], [], 5⟩, ⟨List.replicate 13 0, [], 10⟩, ⟨[], [], [], [], false⟩⟩).2.sc.sender_seq_num
      = (⟨⟨[], [], 5⟩, ⟨List.replicate 13 0, [], 10⟩,
          ⟨[], [], [], [], false⟩⟩ : Context).sc.sender_seq_num + 1 :=
  c4_ssn_committed_before_encryption _ rfl rfl rfl (by norm_num [MAX_SSN])

/-- C4, counterexample to the claim as stated: on a concrete request and a
context with SSN 0, the AEAD failure makes `coap2oscore` fail during
encryption, yet the context's SSN is no longer 0 — it was already
committed. -/
theorem c4_ssn_changed_on_failed_encryption :
    (coap2oscore failAead reqBytes
        ⟨⟨[], [], 0⟩, ⟨List.replicate 13 0, [], 10⟩, ⟨[], [], [], [], false⟩⟩).1
      = .error .aead_failure
    ∧ (coap2oscore failAead reqBytes
        ⟨⟨[], [], 0⟩, ⟨List.replicate 13 0, [], 10⟩, ⟨[], [], [], [], false⟩⟩).2.sc.sender_seq_num
      ≠ 0 := by
  decide

/-- C5: a request sent with SSN = MAX_SSN still succeeds and leaves the
context at MAX_SSN + 1; the next send on that context fails with
`ssn_exhausted`; and in general every send whose SSN is already past
MAX_SSN fails with `ssn_exhausted` and produces no output packet. -/
theorem c5_ssn_exhaustion_boundary :
    (∀ c : Context, c.sc.sender_id = [] → c.cc.id_context = [] →
      c.rrc.reboot = false → c.sc.sender_seq_num = MAX_SSN →
      exceptOk (coap2oscore okAead reqBytes c).1 = true
      ∧ (coap2oscore okAead reqBytes c).2.sc.sender_seq_num = MAX_SSN + 1
      ∧ (coap2oscore okAead reqBytes ((coap2oscore okAead reqBytes c).2)).1
          = .error .ssn_exhausted)
    ∧ (∀ (enc : AeadOracle) (c : Context),
        MAX_SSN < c.sc.sender_seq_num →
        (coap2oscore enc reqBytes c).1 = .error .ssn_exhausted) := by
  constructor
  · intro c hsid hidc hreb hssn
    obtain ⟨⟨sid, key, ssn⟩, ⟨civ, idc, alg⟩, ⟨n0, rkid, rpiv, echo, rb⟩⟩ := c
    dsimp only at hsid hidc hreb hssn
    subst hsid hidc hreb hssn
    rw [coap2oscore_reqBytes,
      oscore_option_branch_request reqPkt [] [] rfl key civ n0 rkid rpiv echo alg
        MAX_SSN le_rfl]
    dsimp only [okAead]
    refine ⟨rfl, ?_, ?_⟩
    · dsimp only
      norm_num [MAX_SSN]
    · dsimp only
      rw [coap2oscore_reqBytes,
        oscore_option_branch_exhausted reqPkt [] [] rfl [] key
          ((MAX_SSN + 1) % 2 ^ 64) _ _ (by norm_num [MAX_SSN])]
  · intro enc c hssn
    obtain ⟨⟨sid, key, ssn⟩, cc, rrc⟩ := c
    dsimp only at hssn
    rw [coap2oscore_reqBytes,
      oscore_option_branch_exhausted reqPkt [] [] rfl sid key ssn cc rrc hssn]

/-- C5, witness: both parts evaluated on concrete contexts with
SSN = 2^40 - 1 and SSN = 2^40. -/
theorem c5_ssn_exhaustion_boundary_witness :
    (exceptOk (coap2oscore okAead reqBytes
        ⟨⟨[], [], MAX_SSN⟩, ⟨List.replicate 13 0, [], 10⟩, ⟨[], [], [], [], false⟩⟩).1 = true
      ∧ (coap2oscore okAead reqBytes
          ⟨⟨[], [], MAX_SSN⟩, ⟨List.replicate 13 0, [], 10⟩,
            ⟨[], [], [], [], false⟩⟩).2.sc.sender_seq_num = MAX_SSN + 1
      ∧ (coap2oscore okAead reqBytes ((coap2oscore okAead reqBytes
          ⟨⟨[], [], MAX_SSN⟩, ⟨List.replicate 13 0, [], 10⟩,
            ⟨[], [], [], [], false⟩⟩).2)).1 = .error .ssn_exhausted)
    ∧ (coap2oscore okAead reqBytes
        ⟨⟨[], [], 2 ^ 40⟩, ⟨List.replicate 13 0, [], 10⟩, ⟨[], [], [], [], false⟩⟩).1
      = .error .ssn_exhausted :=
  ⟨c5_ssn_exhaustion_boundary.1
      ⟨⟨[], [], MAX_SSN⟩, ⟨List.replicate 13 0, [], 10⟩, ⟨[], [], [], [], false⟩⟩
      rfl rfl rfl rfl,
   c5_ssn_exhaustion_boundary.2 okAead
      ⟨⟨[], [], 2 ^ 40⟩, ⟨List.replicate 13 0, [], 10⟩, ⟨[], [], [], [], false⟩⟩
      (by norm_num [MAX_SSN])⟩

/-- C7: for every input buffer that parses as a CoAP packet with code 0.00
and type ACK, `coap2oscore` returns the input buffer unchanged and leaves
the context untouched, for any AEAD primitive (so no encryption and no
context update happens). -/
theorem c7_empty_ack_bypass (enc : AeadOracle) (buf : List Nat) (c : Context)
    (pkt : OCoapPacket) (hp : buf2coap buf = .ok pkt)
    (hcode : pkt.header.code = CODE_EMPTY) (htype : pkt.header.type = TYPE_ACK) :
    coap2oscore enc buf c = (.ok buf, c) := by
  unfold coap2oscore
  rw [hp]
  dsimp only
  rw [if_pos ⟨hcode, htype⟩]

/-- C7, witness: the statement evaluated on the concrete empty ACK
`0x60 0x00 0x00 0x00`. -/
theorem c7_empty_ack_bypass_witness :
    coap2oscore failAead [96, 0, 0, 0]
        ⟨⟨[], [], 0⟩, ⟨[], [], 10⟩, ⟨[], [], [], [], false⟩⟩
      = (.ok [96, 0, 0, 0], ⟨⟨[], [], 0⟩, ⟨[], [], 10⟩, ⟨[], [], [], [], false⟩⟩) :=
  c7_empty_ack_bypass failAead [96, 0, 0, 0] _ ⟨⟨1, 2, 0, 0, 0⟩, [], [], []⟩
    (by decide) rfl rfl

/-- C3: evaluation at the failing input.  For a response (code 2.05) with
an Observe option, `coap2oscore`'s OSCORE-option branch runs
`oscore_option_generate` with the sender id as kid and produces the option
value `0x09 0x30 0x01`: the flag byte has the kid flag k = 1 set and the
kid byte is carried, contradicting the claimed k = 0 / no kid.  (For a
response without observe and without reboot the option value is indeed
absent, last conjunct.) -/
theorem c3_observe_response_kid_flag :
    is_request ⟨⟨1, 0, 0, 69, 0⟩, [], [⟨6, 1, [42], 6⟩], []⟩ = false
    ∧ inner_outer_option_split ⟨⟨1, 0, 0, 69, 0⟩, [], [⟨6, 1, [42], 6⟩], []⟩
        = .ok ⟨6, 6, 6, 1, [⟨6, 0, [], 6⟩], [⟨6, 1, [42], 6⟩]⟩
    ∧ (oscore_option_branch ⟨⟨1, 0, 0, 69, 0⟩, [], [⟨6, 1, [42], 6⟩], []⟩
         [⟨6, 0, [], 6⟩] [⟨6, 1, [42], 6⟩]
         ⟨⟨[1], [], 48⟩, ⟨List.replicate 13 0, [], 10⟩, ⟨[], [], [], [], false⟩⟩).1
        = .ok ⟨OSCORE, 3, [9, 48, 1]⟩
    ∧ (9 &&& COMP_OSCORE_OPT_KID_K_MASK) = COMP_OSCORE_OPT_KID_K_MASK
    ∧ (oscore_option_branch ⟨⟨1, 0, 0, 69, 0⟩, [], [], []⟩ [] []
         ⟨⟨[1], [], 48⟩, ⟨List.replicate 13 0, [], 10⟩, ⟨[], [], [], [], false⟩⟩).1
        = .ok ⟨OSCORE, 0, []⟩ := by
  decide
